import Mathlib

/-!
# Verification of the mcp-communication core

Shallow embedding of the completion-provider abstraction, the cost
calculator, the dispatcher retry loop and the usage aggregation of the
`mcp-communication` repository, together with theorems checking the
specification's claims against it.

Conventions: Python `int` is modelled as `Int` (`Nat` where the source can
only produce non-negative values), Python `float` used for money and time
is modelled as `ℚ`, Python dicts with insertion order as association
lists, and fallible or stateful code as explicit state passing.
-/

set_option linter.unusedVariables false

namespace MCPComm

/-- A chat message `{role, content}` as passed between the components. -/
structure Message where
  role : String
  content : String
deriving DecidableEq, Repr

/-- Helper for Python's `str.split()` (no separator argument): scan the
characters, accumulating the current word in reverse; a whitespace
character ends the current word; empty words are never produced. -/
def wordsAux : List Char → List Char → List (List Char)
  | acc, [] => if acc = [] then [] else [acc.reverse]
  | acc, c :: cs =>
    if c.isWhitespace then
      if acc = [] then wordsAux [] cs else acc.reverse :: wordsAux [] cs
    else wordsAux (c :: acc) cs

/-- Python `s.split()`: the whitespace-separated words of `s`. -/
def pySplit (s : String) : List String :=
  (wordsAux [] s.data).map (fun w => String.mk w)

/-- `len(s.split())`, the word count used by the mock token heuristic. -/
def wordCount (s : String) : Nat :=
  (wordsAux [] s.data).length

/-- The result dict returned by every provider's `chat_completion`:
keys `content`, `prompt_tokens`, `completion_tokens`, `total_tokens`,
`model`. -/
structure CompletionResult where
  content : String
  prompt_tokens : Int
  completion_tokens : Int
  total_tokens : Int
  model : String
deriving DecidableEq, Repr

/-! ## MockProvider -/

/-- The mutable state of a `MockProvider` instance: its `request_count`,
initialised to `0` in `__init__`. -/
structure MockState where
  request_count : Nat
deriving DecidableEq, Repr

/-- The user-message extraction loop shared by the mock entry points:
the content of the first message whose role is `"user"`, else `""`. -/
def extractUserMessage (messages : List Message) : String :=
  ((messages.find? (fun m => m.role == "user")).map Message.content).getD ""

/-- The f-string building the mock non-streaming response. -/
def mockResponseText (n : Nat) (user_message : String) : String :=
  "[MOCK RESPONSE #" ++ toString n ++ "] You said: '" ++ user_message ++
    "'. This is a test response without calling any external API."

/-- The f-string whose words are yielded by the mock streaming call. -/
def mockStreamText (n : Nat) (user_message : String) : String :=
  "[MOCK STREAM #" ++ toString n ++ "] You said: '" ++ user_message ++
    "'. This is a streaming test response."

/-- `MockProvider.chat_completion`: bumps `request_count`, extracts the
user message, builds the mock response and the heuristic token counts.
The `model`, `temperature` and `max_tokens` arguments are accepted (as in
the source) and play no role. Returns the updated state and the result. -/
def mockChatCompletion (st : MockState) (messages : List Message)
    (model : String) (temperature : ℚ) (max_tokens : Int) :
    MockState × CompletionResult :=
  let n := st.request_count + 1
  let user_message := extractUserMessage messages
  let mock_response := mockResponseText n user_message
  let prompt_tokens : Int := (wordCount user_message : Int) * 2
  let completion_tokens : Int := (wordCount mock_response : Int) * 2
  (⟨n⟩,
    { content := mock_response
      prompt_tokens := prompt_tokens
      completion_tokens := completion_tokens
      total_tokens := prompt_tokens + completion_tokens
      model := "mock-model" })

/-- `MockProvider.chat_completion_stream`: bumps `request_count` and
yields each word of the mock stream text followed by one space. Returns
the updated state and the list of yielded chunks. -/
def mockChatCompletionStream (st : MockState) (messages : List Message)
    (model : String) (temperature : ℚ) (max_tokens : Int) :
    MockState × List String :=
  let n := st.request_count + 1
  let user_message := extractUserMessage messages
  (⟨n⟩, (pySplit (mockStreamText n user_message)).map (fun w => w ++ " "))

/-- Consumer-side concatenation of all streamed chunks. -/
def concatChunks (chunks : List String) : String :=
  chunks.foldl (· ++ ·) ""

/-! ## OpenAIProvider -/

/-- The `usage` envelope of an OpenAI chat-completion response. -/
structure OpenAIUsage where
  prompt_tokens : Int
  completion_tokens : Int
  total_tokens : Int
deriving DecidableEq, Repr

/-- The parts of an OpenAI backend response that
`OpenAIProvider.chat_completion` reads: `choices[0].message.content`
(possibly null) and the optional `usage` envelope. -/
structure OpenAIResponse where
  message_content : Option String
  usage : Option OpenAIUsage
deriving DecidableEq, Repr

/-- The result assembly at the end of `OpenAIProvider.chat_completion`:
content defaults to `""`; each token field is copied from the `usage`
envelope when present, else `0`. -/
def openAIChatCompletionResult (model : String) (response : OpenAIResponse) :
    CompletionResult :=
  { content := response.message_content.getD ""
    prompt_tokens := match response.usage with
      | some u => u.prompt_tokens
      | none => 0
    completion_tokens := match response.usage with
      | some u => u.completion_tokens
      | none => 0
    total_tokens := match response.usage with
      | some u => u.total_tokens
      | none => 0
    model := model }

/-! ## BedrockProvider -/

/-- One element of the `content` list in a Bedrock response body; its
`text` key may be absent (read with `.get("text", "")`). -/
structure BedrockContentItem where
  text : Option String
deriving DecidableEq, Repr

/-- The `usage` envelope of a Bedrock response body; both token keys are
read with `.get(..., 0)` so they may be absent. -/
structure BedrockUsage where
  input_tokens : Option Int
  output_tokens : Option Int
deriving DecidableEq, Repr

/-- The parts of a Bedrock response body that
`BedrockProvider.chat_completion` reads. -/
structure BedrockResponseBody where
  content : List BedrockContentItem
  usage : Option BedrockUsage
deriving DecidableEq, Repr

/-- The request body built by `BedrockProvider.chat_completion` (and its
streaming variant): the fixed Anthropic envelope. -/
structure BedrockRequestBody where
  anthropic_version : String
  max_tokens : Int
  temperature : ℚ
  messages : List Message
  system : Option String
deriving DecidableEq, Repr

/-- The system-extraction loop of `BedrockProvider.chat_completion`:
`system_prompt` is overwritten by each system message's content (so the
last one wins), every other message is appended to `chat_messages`. -/
def bedrockSplitMessages (messages : List Message) :
    Option String × List Message :=
  messages.foldl
    (fun st msg =>
      if msg.role == "system" then (some msg.content, st.2)
      else (st.1, st.2 ++ [msg]))
    (none, [])

/-- The request body assembly of `BedrockProvider.chat_completion`.
`body["system"]` is set only under Python truthiness of `system_prompt`,
i.e. only when a system message was seen and its content is non-empty. -/
def buildBedrockBody (messages : List Message) (temperature : ℚ)
    (max_tokens : Int) : BedrockRequestBody :=
  let sp := bedrockSplitMessages messages
  { anthropic_version := "bedrock-2023-05-31"
    max_tokens := max_tokens
    temperature := temperature
    messages := sp.2
    system := match sp.1 with
      | some s => if s == "" then none else some s
      | none => none }

/-- The response parsing at the end of `BedrockProvider.chat_completion`:
content from `content[0].get("text", "")` when the content list is
truthy; token counts from the optional `usage` envelope with default 0;
`total_tokens` computed as their sum. -/
def bedrockChatCompletionResult (model_id : String)
    (body : BedrockResponseBody) : CompletionResult :=
  let content := match body.content with
    | [] => ""
    | item :: _ => item.text.getD ""
  let usage := body.usage.getD ⟨none, none⟩
  let input := usage.input_tokens.getD 0
  let output := usage.output_tokens.getD 0
  { content := content
    prompt_tokens := input
    completion_tokens := output
    total_tokens := input + output
    model := model_id }

/-! ## CostCalculator -/

/-- One row of `CostCalculator.MODEL_COSTS`: USD per 1K tokens. -/
structure ModelCost where
  prompt : ℚ
  completion : ℚ
deriving DecidableEq, Repr

/-- `CostCalculator.MODEL_COSTS`, with the decimal literals as exact
rationals. -/
def MODEL_COSTS : List (String × ModelCost) :=
  [("gpt-4", ⟨3/100, 6/100⟩),
   ("gpt-4-turbo", ⟨1/100, 3/100⟩),
   ("gpt-4o", ⟨5/1000, 15/1000⟩),
   ("gpt-4o-mini", ⟨15/100000, 6/10000⟩),
   ("gpt-3.5-turbo", ⟨15/10000, 2/1000⟩),
   ("anthropic.claude-3-5-sonnet-20241022-v2:0", ⟨3/1000, 15/1000⟩),
   ("anthropic.claude-3-5-sonnet-20240620-v1:0", ⟨3/1000, 15/1000⟩),
   ("anthropic.claude-3-5-haiku-20241022-v1:0", ⟨8/10000, 4/1000⟩),
   ("anthropic.claude-3-sonnet-20240229-v1:0", ⟨3/1000, 15/1000⟩),
   ("anthropic.claude-3-haiku-20240307-v1:0", ⟨25/100000, 125/100000⟩),
   ("anthropic.claude-3-opus-20240229-v1:0", ⟨15/1000, 75/1000⟩)]

/-- `CostCalculator.MODEL_ALIASES`: short Bedrock names to canonical ids. -/
def MODEL_ALIASES : List (String × String) :=
  [("claude-3-sonnet", "anthropic.claude-3-sonnet-20240229-v1:0"),
   ("claude-3-haiku", "anthropic.claude-3-haiku-20240307-v1:0"),
   ("claude-3-opus", "anthropic.claude-3-opus-20240229-v1:0"),
   ("claude-3.5-sonnet", "anthropic.claude-3-5-sonnet-20240620-v1:0"),
   ("claude-3.5-sonnet-v2", "anthropic.claude-3-5-sonnet-20241022-v2:0"),
   ("claude-3.5-haiku", "anthropic.claude-3-5-haiku-20241022-v1:0")]

/-- Round to the nearest integer, ties to even (Python's `round`). -/
def roundHalfEven (q : ℚ) : Int :=
  let f := ⌊q⌋
  let frac := q - f
  if frac < 1/2 then f
  else if 1/2 < frac then f + 1
  else if f % 2 = 0 then f else f + 1

/-- `round(x, 6)` over exact rationals. -/
def round6 (q : ℚ) : ℚ :=
  (roundHalfEven (q * 1000000) : ℚ) / 1000000

/-- Alias resolution `MODEL_ALIASES.get(model, model)`. -/
def resolveModelAlias (model : String) : String :=
  (MODEL_ALIASES.lookup model).getD model

/-- `CostCalculator.calculate`: resolve the alias, look the model up in
the rate table; unknown models cost `0.0`; known models get the rounded
per-1K-token formula. -/
def calculate (model : String) (prompt_tokens completion_tokens : Int) : ℚ :=
  let resolved_model := resolveModelAlias model
  match MODEL_COSTS.lookup resolved_model with
  | none => 0
  | some costs =>
      round6 ((prompt_tokens : ℚ) / 1000 * costs.prompt
        + (completion_tokens : ℚ) / 1000 * costs.completion)

/-! ## RequestDispatcher (`send_message_to_ai` in `server_a.py`) -/

/-- The usage figures carried in a successful Server B response. -/
structure UsageFigures where
  promptTokens : Int
  completionTokens : Int
  totalTokens : Int
  estimatedCost : ℚ
deriving DecidableEq, Repr

/-- The payload of a successful Server B `/process` response, as read by
the dispatcher. -/
structure ProcessData where
  aiResponse : String
  model : String
  usage : UsageFigures
  timestamp : String
deriving DecidableEq, Repr

/-- What one attempt of the dispatcher's HTTP call to Server B can
observe: a 200 response with data, a non-200 status with error text, a
connection error, a timeout, or any other exception. -/
inductive AttemptOutcome where
  | ok (data : ProcessData)
  | httpError (status : Nat) (detail : String)
  | connectError
  | timeoutError
  | otherError (message : String)
deriving DecidableEq, Repr

/-- The structured JSON result `send_message_to_ai` returns: a tagged
success, or one of its tagged failure payloads. -/
inductive DispatchResult where
  | success (data : ProcessData)
  | failureStatus (status : Nat) (detail : String)
  | failureConnect
  | failureTimeout
  | failureOther (message : String)
  | failureMaxRetries
deriving DecidableEq, Repr

/-- The `success` field of the returned JSON object. -/
def DispatchResult.isSuccess : DispatchResult → Bool
  | .success _ => true
  | _ => false

/-- Observable trace of one `send_message_to_ai` call: the returned
result, how many attempts were made, and the backoff sleeps performed
(in seconds, in order). -/
structure SendTrace where
  result : DispatchResult
  attempts : Nat
  waits : List Nat
deriving DecidableEq, Repr

/-- The `for attempt in range(RETRY_ATTEMPTS)` loop of
`send_message_to_ai`. `i` is the current 0-indexed attempt, `fuel` the
number of loop iterations left. A 200 response returns success at once;
non-200 status, connection errors and timeouts sleep `2 ** attempt` and
retry while `attempt < RETRY_ATTEMPTS - 1`, else return their failure
payload; any other exception returns its failure payload at once. When
the loop ends without returning, the max-retries failure is returned. -/
def sendLoop (backend : Nat → AttemptOutcome) (retry_attempts : Nat) :
    Nat → Nat → SendTrace
  | _, 0 => ⟨.failureMaxRetries, 0, []⟩
  | i, fuel + 1 =>
    match backend i with
    | .ok d => ⟨.success d, 1, []⟩
    | .httpError status detail =>
        if i < retry_attempts - 1 then
          let t := sendLoop backend retry_attempts (i + 1) fuel
          ⟨t.result, t.attempts + 1, 2 ^ i :: t.waits⟩
        else ⟨.failureStatus status detail, 1, []⟩
    | .connectError =>
        if i < retry_attempts - 1 then
          let t := sendLoop backend retry_attempts (i + 1) fuel
          ⟨t.result, t.attempts + 1, 2 ^ i :: t.waits⟩
        else ⟨.failureConnect, 1, []⟩
    | .timeoutError =>
        if i < retry_attempts - 1 then
          let t := sendLoop backend retry_attempts (i + 1) fuel
          ⟨t.result, t.attempts + 1, 2 ^ i :: t.waits⟩
        else ⟨.failureTimeout, 1, []⟩
    | .otherError msg => ⟨.failureOther msg, 1, []⟩

/-- `send_message_to_ai` as a function of the backend's behaviour per
attempt and the `RETRY_ATTEMPTS` configuration value. -/
def sendMessageToAI (backend : Nat → AttemptOutcome)
    (retry_attempts : Nat) : SendTrace :=
  sendLoop backend retry_attempts 0 retry_attempts

/-! ## Usage aggregation (`_update_usage_stats` in `server_a.py`) -/

/-- A per-model bucket `{"requests": ..., "tokens": ..., "cost": ...}`. -/
structure ModelBucket where
  requests : Nat
  tokens : Int
  cost : ℚ
deriving DecidableEq, Repr

/-- The `ai_usage_stats` dict of Server A. -/
structure UsageStats where
  totalRequests : Nat
  totalTokens : Int
  totalPromptTokens : Int
  totalCompletionTokens : Int
  estimatedTotalCost : ℚ
  modelUsage : List (String × ModelBucket)
  responseTimes : List ℚ
deriving DecidableEq, Repr

/-- The initial `ai_usage_stats` value set at module load. -/
def initialUsageStats : UsageStats :=
  ⟨0, 0, 0, 0, 0, [], []⟩

/-- The three `+=` updates on `ai_usage_stats["modelUsage"][model]`,
applied to the (first) binding of `model` in the association list. -/
def bumpBucket (mu : List (String × ModelBucket)) (model : String)
    (tokens : Int) (cost : ℚ) : List (String × ModelBucket) :=
  match mu with
  | [] => []
  | (k, b) :: rest =>
      if k == model then
        (k, ⟨b.requests + 1, b.tokens + tokens, b.cost + cost⟩) :: rest
      else (k, b) :: bumpBucket rest model tokens cost

/-- The per-model part of `_update_usage_stats`: insert a zero bucket if
the model is unseen (Python dicts append new keys at the end), then
increment its three counters. -/
def updateModelUsage (mu : List (String × ModelBucket)) (model : String)
    (tokens : Int) (cost : ℚ) : List (String × ModelBucket) :=
  let mu' := if (mu.lookup model).isNone then mu ++ [(model, ⟨0, 0, 0⟩)] else mu
  bumpBucket mu' model tokens cost

/-- `_update_usage_stats(usage, model, response_time)`. -/
def updateUsageStats (s : UsageStats) (usage : UsageFigures) (model : String)
    (response_time : ℚ) : UsageStats :=
  { totalRequests := s.totalRequests + 1
    totalTokens := s.totalTokens + usage.totalTokens
    totalPromptTokens := s.totalPromptTokens + usage.promptTokens
    totalCompletionTokens := s.totalCompletionTokens + usage.completionTokens
    estimatedTotalCost := s.estimatedTotalCost + usage.estimatedCost
    modelUsage := updateModelUsage s.modelUsage model usage.totalTokens
      usage.estimatedCost
    responseTimes := s.responseTimes ++ [response_time] }

/-- The aggregate after a sequence of successful dispatcher calls, each
carrying its usage figures, model id and response time. -/
def runUsageUpdates (calls : List (UsageFigures × String × ℚ)) : UsageStats :=
  calls.foldl (fun s c => updateUsageStats s c.1 c.2.1 c.2.2) initialUsageStats

/-- Total of the per-model `requests` counters. -/
def sumBucketRequests (mu : List (String × ModelBucket)) : Nat :=
  (mu.map (fun p => p.2.requests)).sum

/-- The attempt outcomes that the dispatcher's loop retries (non-200
status, connection error, timeout), as opposed to a success or the
generic exception handler. -/
def isRetryableFailure : AttemptOutcome → Bool
  | .httpError _ _ => true
  | .connectError => true
  | .timeoutError => true
  | .ok _ => false
  | .otherError _ => false

/-- Specification-level description of what the Bedrock extraction loop
keeps as `system_prompt`: the content of the last system-role message of
the list, if any. -/
def lastSystemContent : List Message → Option String
  | [] => none
  | m :: rest =>
    match lastSystemContent rest with
    | some s => some s
    | none => if m.role == "system" then some m.content else none

end MCPComm

/-! ## Helper lemmas -/

namespace MCPComm

lemma sendLoop_exhausts (backend : Nat → AttemptOutcome) (ra : Nat)
    (h : ∀ j, j < ra → isRetryableFailure (backend j) = true) :
    ∀ fuel i, i + fuel = ra →
      (sendLoop backend ra i fuel).result.isSuccess = false ∧
      (sendLoop backend ra i fuel).attempts = fuel := by
  intro fuel
  induction fuel with
  | zero => exact fun i hi => ⟨rfl, rfl⟩
  | succ fuel ih =>
    intro i hi
    have hj : i < ra := by omega
    have hb := h i hj
    cases hbe : backend i with
    | ok d => rw [hbe] at hb; simp [isRetryableFailure] at hb
    | otherError m => rw [hbe] at hb; simp [isRetryableFailure] at hb
    | httpError status det =>
      by_cases hlt : i < ra - 1
      · have hrec := ih (i + 1) (by omega)
        simp [sendLoop, hbe, hlt, hrec.1, hrec.2]
      · have hf : fuel = 0 := by omega
        subst hf
        simp [sendLoop, hbe, hlt, DispatchResult.isSuccess]
    | connectError =>
      by_cases hlt : i < ra - 1
      · have hrec := ih (i + 1) (by omega)
        simp [sendLoop, hbe, hlt, hrec.1, hrec.2]
      · have hf : fuel = 0 := by omega
        subst hf
        simp [sendLoop, hbe, hlt, DispatchResult.isSuccess]
    | timeoutError =>
      by_cases hlt : i < ra - 1
      · have hrec := ih (i + 1) (by omega)
        simp [sendLoop, hbe, hlt, hrec.1, hrec.2]
      · have hf : fuel = 0 := by omega
        subst hf
        simp [sendLoop, hbe, hlt, DispatchResult.isSuccess]

lemma sendLoop_http_const (backend : Nat → AttemptOutcome) (ra status : Nat)
    (det : String) (h : ∀ j, j < ra → backend j = .httpError status det) :
    ∀ fuel i, i + fuel = ra → 1 ≤ fuel →
      sendLoop backend ra i fuel =
        ⟨.failureStatus status det, fuel,
          (List.range' i (fuel - 1)).map (fun k => 2 ^ k)⟩ := by
  intro fuel
  induction fuel with
  | zero => intro i hi hf; omega
  | succ fuel ih =>
    intro i hi hf
    have hj : i < ra := by omega
    have hbe := h i hj
    rcases Nat.eq_zero_or_pos fuel with hf0 | hfpos
    · subst hf0
      have hlt : ¬ i < ra - 1 := by omega
      simp [sendLoop, hbe, hlt]
    · have hlt : i < ra - 1 := by omega
      have hrec := ih (i + 1) (by omega) hfpos
      have hsf : fuel + 1 - 1 = (fuel - 1) + 1 := by omega
      simp only [sendLoop, hbe, hlt, if_true, hrec, hsf, List.range'_succ,
        List.map_cons]

lemma mem_keys_of_lookup_isSome (l : List (String × ModelBucket)) (k : String) :
    (l.lookup k).isSome = true ↔ k ∈ l.map Prod.fst := by
  constructor
  · intro h
    obtain ⟨p, hp, hbeq⟩ := List.lookup_isSome_iff.mp h
    exact List.mem_map.mpr ⟨p, hp, (beq_iff_eq.mp hbeq).symm⟩
  · intro h
    obtain ⟨p, hp, hfst⟩ := List.mem_map.mp h
    exact List.lookup_isSome_iff.mpr ⟨p, hp, beq_iff_eq.mpr hfst.symm⟩

lemma bumpBucket_keys (mu : List (String × ModelBucket)) (model : String)
    (tokens : Int) (cost : ℚ) :
    (bumpBucket mu model tokens cost).map Prod.fst = mu.map Prod.fst := by
  induction mu with
  | nil => rfl
  | cons p rest ih =>
    obtain ⟨key, b⟩ := p
    cases hk : key == model <;> simp [bumpBucket, hk, ih]

lemma lookup_isSome_bumpBucket (mu : List (String × ModelBucket)) (model k : String)
    (tokens : Int) (cost : ℚ) :
    ((bumpBucket mu model tokens cost).lookup k).isSome = true ↔
      (mu.lookup k).isSome = true := by
  rw [mem_keys_of_lookup_isSome, mem_keys_of_lookup_isSome, bumpBucket_keys]

lemma lookup_isSome_append_self (mu : List (String × ModelBucket)) (model : String)
    (b : ModelBucket) : ((mu ++ [(model, b)]).lookup model).isSome = true := by
  cases h : mu.lookup model <;>
    simp [List.lookup_append, h, Option.or]

lemma sumBucketRequests_append (mu : List (String × ModelBucket))
    (x : String × ModelBucket) :
    sumBucketRequests (mu ++ [x]) = sumBucketRequests mu + x.2.requests := by
  simp [sumBucketRequests]

lemma sumBucketRequests_cons (p : String × ModelBucket)
    (rest : List (String × ModelBucket)) :
    sumBucketRequests (p :: rest) = p.2.requests + sumBucketRequests rest := by
  simp [sumBucketRequests]

lemma sumBucketRequests_bumpBucket (mu : List (String × ModelBucket)) (model : String)
    (tokens : Int) (cost : ℚ) (h : (mu.lookup model).isSome = true) :
    sumBucketRequests (bumpBucket mu model tokens cost) = sumBucketRequests mu + 1 := by
  induction mu with
  | nil => simp at h
  | cons p rest ih =>
    obtain ⟨key, b⟩ := p
    cases hk : key == model
    · have hmodel : (model == key) = false :=
        beq_eq_false_iff_ne.mpr (Ne.symm (beq_eq_false_iff_ne.mp hk))
      rw [List.lookup_cons, hmodel] at h
      simp only [bumpBucket, hk, Bool.false_eq_true, if_false]
      simp only [sumBucketRequests_cons]
      rw [ih (by simpa using h)]
      omega
    · simp only [bumpBucket, hk, if_true]
      simp [sumBucketRequests_cons]
      omega

lemma sumBucketRequests_updateModelUsage (mu : List (String × ModelBucket))
    (model : String) (tokens : Int) (cost : ℚ) :
    sumBucketRequests (updateModelUsage mu model tokens cost)
      = sumBucketRequests mu + 1 := by
  unfold updateModelUsage
  cases hl : (mu.lookup model).isNone
  · have hsome : (mu.lookup model).isSome = true := by
      cases hll : mu.lookup model
      · rw [hll] at hl; simp at hl
      · rfl
    simp only [hl, Bool.false_eq_true, if_false]
    exact sumBucketRequests_bumpBucket mu model tokens cost hsome
  · simp only [hl, if_true]
    rw [sumBucketRequests_bumpBucket _ _ _ _ (lookup_isSome_append_self mu model _),
      sumBucketRequests_append]
    simp

lemma lookup_isSome_updateModelUsage (mu : List (String × ModelBucket))
    (model k : String) (tokens : Int) (cost : ℚ)
    (h : (mu.lookup k).isSome = true) :
    ((updateModelUsage mu model tokens cost).lookup k).isSome = true := by
  unfold updateModelUsage
  rw [lookup_isSome_bumpBucket]
  cases hl : (mu.lookup model).isNone
  · simpa [hl] using h
  · simp only [hl, if_true]
    obtain ⟨b, hb⟩ := Option.isSome_iff_exists.mp h
    simp [List.lookup_append, hb, Option.or]

lemma runUsageUpdates_foldl (calls : List (UsageFigures × String × ℚ)) :
    ∀ s : UsageStats,
      (calls.foldl (fun s c => updateUsageStats s c.1 c.2.1 c.2.2) s).totalRequests
          = s.totalRequests + calls.length ∧
      (calls.foldl (fun s c => updateUsageStats s c.1 c.2.1 c.2.2) s).totalTokens
          = s.totalTokens + (calls.map (fun c => c.1.totalTokens)).sum ∧
      sumBucketRequests
          (calls.foldl (fun s c => updateUsageStats s c.1 c.2.1 c.2.2) s).modelUsage
          = sumBucketRequests s.modelUsage + calls.length := by
  induction calls with
  | nil => intro s; simp
  | cons c rest ih =>
    intro s
    obtain ⟨h1, h2, h3⟩ := ih (updateUsageStats s c.1 c.2.1 c.2.2)
    refine ⟨?_, ?_, ?_⟩
    · rw [List.foldl_cons, h1]
      simp [updateUsageStats]
      omega
    · rw [List.foldl_cons, h2]
      simp [updateUsageStats]
      omega
    · rw [List.foldl_cons, h3]
      simp [updateUsageStats, sumBucketRequests_updateModelUsage]
      omega

lemma bedrockSplit_go (msgs : List Message) (acc : Option String × List Message) :
    msgs.foldl
        (fun st msg =>
          if msg.role == "system" then (some msg.content, st.2)
          else (st.1, st.2 ++ [msg])) acc =
      ((match lastSystemContent msgs with
        | some s => some s
        | none => acc.1),
       acc.2 ++ msgs.filter (fun m => !(m.role == "system"))) := by
  induction msgs generalizing acc with
  | nil => simp [lastSystemContent]
  | cons m rest ih =>
    cases hr : m.role == "system"
    · simp only [List.foldl_cons, hr, Bool.false_eq_true, if_false]
      rw [ih]
      simp only [lastSystemContent, hr, List.filter_cons, Bool.not_false,
        Bool.false_eq_true, if_false]
      cases lastSystemContent rest <;> simp
    · simp only [List.foldl_cons, hr, if_true]
      rw [ih]
      simp only [lastSystemContent, hr, List.filter_cons, Bool.not_true,
        Bool.false_eq_true, if_true]
      cases lastSystemContent rest <;> simp

lemma foldl_append_data (l : List String) :
    ∀ init : String,
      (l.foldl (· ++ ·) init).data = init.data ++ (l.map String.data).flatten := by
  induction l with
  | nil => intro init; simp
  | cons a rest ih =>
    intro init
    rw [List.foldl_cons, ih (init ++ a)]
    simp

lemma concatChunks_data (l : List String) :
    (concatChunks l).data = (l.map String.data).flatten := by
  simpa [concatChunks] using foldl_append_data l ""

lemma chunk_data_map (ws : List (List Char)) :
    ((ws.map (fun w => String.mk w)).map (fun w => w ++ " ")).map String.data
      = ws.map (fun w => w ++ [' ']) := by
  simp [List.map_map, Function.comp, String.data_append]

lemma wordsAux_mockStream_head (r : List Char) :
    wordsAux []
        ('[' :: 'M' :: 'O' :: 'C' :: 'K' :: ' ' :: 'S' :: 'T' :: 'R' :: 'E' ::
          'A' :: 'M' :: ' ' :: '#' :: r)
      = ['[', 'M', 'O', 'C', 'K'] :: ['S', 'T', 'R', 'E', 'A', 'M'] ::
          wordsAux ['#'] r := by
  rfl

lemma mockStreamText_data (n : Nat) (u : String) :
    (mockStreamText n u).data
      = '[' :: 'M' :: 'O' :: 'C' :: 'K' :: ' ' :: 'S' :: 'T' :: 'R' :: 'E' ::
          'A' :: 'M' :: ' ' :: '#' ::
          ((toString n).data ++ "] You said: '".data ++ u.data ++
            "'. This is a streaming test response.".data) := by
  have hd : "[MOCK STREAM #".data
      = ['[', 'M', 'O', 'C', 'K', ' ', 'S', 'T', 'R', 'E', 'A', 'M', ' ', '#'] := rfl
  simp [mockStreamText, String.data_append, hd]

lemma mockResponseText_data (n : Nat) (u : String) :
    (mockResponseText n u).data
      = '[' :: 'M' :: 'O' :: 'C' :: 'K' :: ' ' :: 'R' :: 'E' :: 'S' :: 'P' ::
          'O' :: 'N' :: 'S' :: 'E' :: ' ' :: '#' ::
          ((toString n).data ++ "] You said: '".data ++ u.data ++
            "'. This is a test response without calling any external API.".data) := by
  have hd : "[MOCK RESPONSE #".data
      = ['[', 'M', 'O', 'C', 'K', ' ', 'R', 'E', 'S', 'P', 'O', 'N', 'S', 'E',
         ' ', '#'] := rfl
  simp [mockResponseText, String.data_append, hd]

lemma mock_stream_concat_ne_content (n m : Nat) (u v : String) :
    concatChunks ((pySplit (mockStreamText n u)).map (fun w => w ++ " "))
      ≠ mockResponseText m v := by
  intro h
  have hdata := congrArg String.data h
  rw [concatChunks_data, pySplit, chunk_data_map, mockStreamText_data,
    wordsAux_mockStream_head, mockResponseText_data] at hdata
  simp only [List.map_cons, List.flatten_cons, List.cons_append, List.nil_append,
    List.cons.injEq] at hdata
  exact absurd hdata.2.2.2.2.2.2.1 (by decide)

end MCPComm

/-! ## Claim theorems -/

namespace MCPComm

/-- C1, counterexample: an OpenAI backend usage envelope reporting
`total_tokens = 5` alongside `prompt_tokens = 1` and
`completion_tokens = 1` is copied verbatim into the result, so the
returned `total_tokens` is not the sum of the other two fields. -/
theorem openai_total_tokens_counterexample :
    (openAIChatCompletionResult "gpt-4" ⟨some "ok", some ⟨1, 1, 5⟩⟩).total_tokens ≠
      (openAIChatCompletionResult "gpt-4" ⟨some "ok", some ⟨1, 1, 5⟩⟩).prompt_tokens +
        (openAIChatCompletionResult "gpt-4" ⟨some "ok", some ⟨1, 1, 5⟩⟩).completion_tokens := by
  decide

/-- C1, amended: the Bedrock and Mock providers always compute
`total_tokens` as `prompt_tokens + completion_tokens`; the OpenAI
provider instead copies `total_tokens` from the backend usage envelope
(`0` when the envelope is absent), so for it the sum invariant holds
exactly when the envelope itself satisfies it — in particular it holds
when the envelope is absent. -/
theorem total_tokens_sum_amended :
    (∀ (model_id : String) (body : BedrockResponseBody),
      (bedrockChatCompletionResult model_id body).total_tokens =
        (bedrockChatCompletionResult model_id body).prompt_tokens +
          (bedrockChatCompletionResult model_id body).completion_tokens) ∧
    (∀ (st : MockState) (messages : List Message) (model : String)
        (temperature : ℚ) (max_tokens : Int),
      (mockChatCompletion st messages model temperature max_tokens).2.total_tokens =
        (mockChatCompletion st messages model temperature max_tokens).2.prompt_tokens +
          (mockChatCompletion st messages model temperature max_tokens).2.completion_tokens) ∧
    (∀ (model : String) (response : OpenAIResponse),
      (openAIChatCompletionResult model response).total_tokens =
        ((response.usage.map OpenAIUsage.total_tokens).getD 0)) ∧
    (∀ (model : String) (mc : Option String),
      (openAIChatCompletionResult model ⟨mc, none⟩).total_tokens =
        (openAIChatCompletionResult model ⟨mc, none⟩).prompt_tokens +
          (openAIChatCompletionResult model ⟨mc, none⟩).completion_tokens) := by
  refine ⟨fun model_id body => rfl, fun st messages model t mt => rfl, ?_,
    fun model mc => rfl⟩
  intro model response
  cases response with
  | mk mc usage => cases usage <;> rfl

/-- C2: for every model whose alias-resolved id is in the rate table,
`CostCalculator.calculate` returns the 6-decimal rounding of
`promptTokens/1000 × promptRate + completionTokens/1000 × completionRate`;
for every model whose resolved id is absent it returns exactly `0.0`
(and, being a total function, never raises). -/
theorem cost_calculate_spec (model : String) (prompt_tokens completion_tokens : Int)
    (hp : 0 ≤ prompt_tokens) (hc : 0 ≤ completion_tokens) :
    (∀ costs, MODEL_COSTS.lookup (resolveModelAlias model) = some costs →
      calculate model prompt_tokens completion_tokens =
        round6 ((prompt_tokens : ℚ) / 1000 * costs.prompt
          + (completion_tokens : ℚ) / 1000 * costs.completion)) ∧
    (MODEL_COSTS.lookup (resolveModelAlias model) = none →
      calculate model prompt_tokens completion_tokens = 0) := by
  constructor
  · intro costs hcosts
    simp only [calculate]
    rw [hcosts]
  · intro hnone
    simp only [calculate]
    rw [hnone]

/-- C2, witness: the aliased model `"claude-3-haiku"` at 2000 prompt and
1000 completion tokens costs `0.00175` USD, and an unknown model costs
`0.0`. -/
theorem cost_calculate_spec_witness :
    calculate "claude-3-haiku" 2000 1000 = 7/4000 ∧
    calculate "unknown-model" 5 7 = 0 := by
  constructor
  · have h := (cost_calculate_spec "claude-3-haiku" 2000 1000 (by norm_num)
      (by norm_num)).1 ⟨25/100000, 125/100000⟩ rfl
    rw [h]
    norm_num [round6, roundHalfEven]
  · exact (cost_calculate_spec "unknown-model" 5 7 (by norm_num) (by norm_num)).2 rfl

/-- C3: a backend that fails with connection errors on attempts 1 and 2
and succeeds on attempt 3, with `RETRY_ATTEMPTS = 3`, yields a success
result after exactly 3 attempts, with backoff sleeps of `2^0 = 1` and
`2^1 = 2` time units after the two failed attempts and none after the
final attempt. -/
theorem retry_success_on_third_attempt (backend : Nat → AttemptOutcome)
    (d : ProcessData)
    (h0 : backend 0 = .connectError) (h1 : backend 1 = .connectError)
    (h2 : backend 2 = .ok d) :
    sendMessageToAI backend 3 = ⟨.success d, 3, [1, 2]⟩ := by
  simp [sendMessageToAI, sendLoop, h0, h1, h2]

/-- C3, witness: the concrete backend failing twice then answering. -/
theorem retry_success_on_third_attempt_witness :
    sendMessageToAI
        (fun i => if i < 2 then .connectError else .ok ⟨"r", "gpt-4", ⟨1, 2, 3, 0⟩, "t"⟩) 3 =
      ⟨.success ⟨"r", "gpt-4", ⟨1, 2, 3, 0⟩, "t"⟩, 3, [1, 2]⟩ :=
  retry_success_on_third_attempt _ _ rfl rfl rfl

/-- C4: a backend whose every attempt fails retryably (connection
failure, timeout or non-2xx status) makes the dispatcher perform exactly
`RETRY_ATTEMPTS` attempts and return a tagged failure result (the
embedding is a total function, so no exception can escape). -/
theorem retry_exhaustion (backend : Nat → AttemptOutcome) (ra : Nat)
    (h : ∀ j, j < ra → isRetryableFailure (backend j) = true) :
    (sendMessageToAI backend ra).result.isSuccess = false ∧
    (sendMessageToAI backend ra).attempts = ra :=
  sendLoop_exhausts backend ra h ra 0 (by omega)

/-- C4, witness: a backend that always refuses connections, with
`RETRY_ATTEMPTS = 3`. -/
theorem retry_exhaustion_witness :
    (sendMessageToAI (fun _ => .connectError) 3).result.isSuccess = false ∧
    (sendMessageToAI (fun _ => .connectError) 3).attempts = 3 :=
  retry_exhaustion (fun _ => .connectError) 3 (fun j hj => rfl)

/-- C5, counterexample: when the remote answers HTTP 401 on the first
attempt, the dispatcher does not stop there — with `RETRY_ATTEMPTS = 3`
it performs 3 attempts (not 1), sleeping 1 and 2 time units in between. -/
theorem auth_401_counterexample :
    (sendMessageToAI (fun _ => .httpError 401 "Unauthorized") 3).attempts = 3 ∧
    (sendMessageToAI (fun _ => .httpError 401 "Unauthorized") 3).attempts ≠ 1 ∧
    (sendMessageToAI (fun _ => .httpError 401 "Unauthorized") 3).waits = [1, 2] := by
  decide

/-- C5, amended: a 401 response is treated like any other non-2xx
status — retried with exponential backoff until the attempt budget is
exhausted, after which the status is surfaced in a structured failure
result. -/
theorem auth_401_retried_amended (backend : Nat → AttemptOutcome) (ra : Nat)
    (det : String) (h : ∀ j, j < ra → backend j = .httpError 401 det)
    (hra : 1 ≤ ra) :
    sendMessageToAI backend ra =
      ⟨.failureStatus 401 det, ra, (List.range (ra - 1)).map (fun k => 2 ^ k)⟩ := by
  have hmain := sendLoop_http_const backend ra 401 det h ra 0 (by omega) hra
  simpa [sendMessageToAI, List.range_eq_range'] using hmain

/-- C5, amended witness: the constant-401 backend with 3 attempts. -/
theorem auth_401_retried_amended_witness :
    sendMessageToAI (fun _ => .httpError 401 "Unauthorized") 3 =
      ⟨.failureStatus 401 "Unauthorized", 3, (List.range 2).map (fun k => 2 ^ k)⟩ :=
  auth_401_retried_amended (fun _ => .httpError 401 "Unauthorized") 3 "Unauthorized"
    (fun j hj => rfl) (by omega)

/-- C6, counterexample: for the fresh mock instance and user message
`"hi"`, the concatenation of the streamed chunks (built from the
`[MOCK STREAM #N]` template, one trailing space per word) differs from
the non-streaming content (built from the `[MOCK RESPONSE #N]`
template). -/
theorem mock_stream_concat_counterexample :
    concatChunks
        (mockChatCompletionStream ⟨0⟩ [⟨"user", "hi"⟩] "mock-model" 1 100).2 ≠
      (mockChatCompletion ⟨0⟩ [⟨"user", "hi"⟩] "mock-model" 1 100).2.content := by
  decide

/-- C6, amended: streaming and non-streaming mock calls advance the same
per-instance counter, and the concatenation of all streamed chunks equals
the word-split of the `[MOCK STREAM #N]` template re-joined with one
trailing space per word — which is never equal to the non-streaming
content, whose `[MOCK RESPONSE #N]` template differs. -/
theorem mock_stream_concat_amended (st : MockState) (messages : List Message)
    (model : String) (temperature : ℚ) (max_tokens : Int) :
    (mockChatCompletionStream st messages model temperature max_tokens).1
        = (mockChatCompletion st messages model temperature max_tokens).1 ∧
    concatChunks (mockChatCompletionStream st messages model temperature max_tokens).2
        = concatChunks ((pySplit (mockStreamText (st.request_count + 1)
            (extractUserMessage messages))).map (fun w => w ++ " ")) ∧
    concatChunks (mockChatCompletionStream st messages model temperature max_tokens).2
        ≠ (mockChatCompletion st messages model temperature max_tokens).2.content :=
  ⟨rfl, rfl,
    mock_stream_concat_ne_content (st.request_count + 1) (st.request_count + 1)
      (extractUserMessage messages) (extractUserMessage messages)⟩

/-- C7: starting from the empty aggregate, after `N` successful
dispatcher calls `totalRequests = N`, `totalTokens` is the sum of the
calls' `totalTokens` figures, and the per-model `requests` counters also
sum to `N`; moreover each update preserves every existing per-model
bucket (append-or-increment, no deletion), increments `totalRequests` by
exactly one, and only appends to the response-time log. -/
theorem usage_aggregate_invariants (calls : List (UsageFigures × String × ℚ)) :
    (runUsageUpdates calls).totalRequests = calls.length ∧
    (runUsageUpdates calls).totalTokens
        = (calls.map (fun c => c.1.totalTokens)).sum ∧
    sumBucketRequests (runUsageUpdates calls).modelUsage = calls.length ∧
    (∀ (s : UsageStats) (u : UsageFigures) (m : String) (t : ℚ) (k : String),
      (s.modelUsage.lookup k).isSome = true →
        (((updateUsageStats s u m t).modelUsage).lookup k).isSome = true) ∧
    (∀ (s : UsageStats) (u : UsageFigures) (m : String) (t : ℚ),
      (updateUsageStats s u m t).totalRequests = s.totalRequests + 1 ∧
      (updateUsageStats s u m t).responseTimes = s.responseTimes ++ [t]) := by
  obtain ⟨h1, h2, h3⟩ := runUsageUpdates_foldl calls initialUsageStats
  refine ⟨?_, ?_, ?_, ?_, ?_⟩
  · simpa [runUsageUpdates, initialUsageStats] using h1
  · simpa [runUsageUpdates, initialUsageStats] using h2
  · simpa [runUsageUpdates, initialUsageStats, sumBucketRequests] using h3
  · intro s u m t k hk
    exact lookup_isSome_updateModelUsage s.modelUsage m k u.totalTokens
      u.estimatedCost hk
  · intro s u m t
    exact ⟨rfl, rfl⟩

/-- C7, witness: three concrete calls over two models give
`totalRequests = 3`, `totalTokens = 3 + 9 + 7 = 19`, per-model request
counters summing to 3, and bucket preservation at a concrete aggregate. -/
theorem usage_aggregate_invariants_witness :
    (runUsageUpdates
        [(⟨1, 2, 3, 0⟩, "gpt-4", 1), (⟨4, 5, 9, 0⟩, "mock-model", 2),
         (⟨0, 0, 7, 0⟩, "gpt-4", 3)]).totalRequests = 3 ∧
    (runUsageUpdates
        [(⟨1, 2, 3, 0⟩, "gpt-4", 1), (⟨4, 5, 9, 0⟩, "mock-model", 2),
         (⟨0, 0, 7, 0⟩, "gpt-4", 3)]).totalTokens = 19 ∧
    sumBucketRequests
        (runUsageUpdates
          [(⟨1, 2, 3, 0⟩, "gpt-4", 1), (⟨4, 5, 9, 0⟩, "mock-model", 2),
           (⟨0, 0, 7, 0⟩, "gpt-4", 3)]).modelUsage = 3 ∧
    ((updateUsageStats ⟨0, 0, 0, 0, 0, [("gpt-4", ⟨1, 3, 0⟩)], []⟩ ⟨0, 0, 7, 0⟩
        "mock-model" 2).modelUsage.lookup "gpt-4").isSome = true := by
  obtain ⟨h1, h2, h3, h4, h5⟩ := usage_aggregate_invariants
    [(⟨1, 2, 3, 0⟩, "gpt-4", 1), (⟨4, 5, 9, 0⟩, "mock-model", 2),
     (⟨0, 0, 7, 0⟩, "gpt-4", 3)]
  refine ⟨by simpa using h1, by simpa using h2, by simpa using h3, ?_⟩
  exact h4 ⟨0, 0, 0, 0, 0, [("gpt-4", ⟨1, 3, 0⟩)], []⟩ ⟨0, 0, 7, 0⟩ "mock-model" 2
    "gpt-4" rfl

/-- C8: the mock token heuristic is `prompt_tokens = wordCount(user
message) × 2` and `completion_tokens = wordCount(response) × 2` for every
call; a fresh instance called twice with user message `"hi there"` embeds
counter values 1 and then 2 in the response text, the counter advances by
one per call, and both calls report `prompt_tokens = 4`. -/
theorem mock_counter_and_token_heuristic :
    (∀ (st : MockState) (messages : List Message) (model : String)
        (temperature : ℚ) (max_tokens : Int),
      (mockChatCompletion st messages model temperature max_tokens).2.prompt_tokens
          = (wordCount (extractUserMessage messages) : Int) * 2 ∧
      (mockChatCompletion st messages model temperature max_tokens).2.completion_tokens
          = (wordCount
              (mockChatCompletion st messages model temperature max_tokens).2.content : Int)
            * 2 ∧
      (mockChatCompletion st messages model temperature max_tokens).1.request_count
          = st.request_count + 1) ∧
    ((mockChatCompletion ⟨0⟩ [⟨"user", "hi there"⟩] "mock-model" 1 1000).2.content
        = "[MOCK RESPONSE #1] You said: 'hi there'. This is a test response without calling any external API." ∧
     (mockChatCompletion ⟨1⟩ [⟨"user", "hi there"⟩] "mock-model" 1 1000).2.content
        = "[MOCK RESPONSE #2] You said: 'hi there'. This is a test response without calling any external API." ∧
     (mockChatCompletion ⟨0⟩ [⟨"user", "hi there"⟩] "mock-model" 1 1000).1.request_count = 1 ∧
     (mockChatCompletion ⟨0⟩ [⟨"user", "hi there"⟩] "mock-model" 1 1000).2.prompt_tokens = 4 ∧
     (mockChatCompletion ⟨1⟩ [⟨"user", "hi there"⟩] "mock-model" 1 1000).2.prompt_tokens = 4) := by
  refine ⟨fun st messages model temperature max_tokens => ⟨rfl, rfl, rfl⟩,
    ?_, ?_, rfl, ?_, ?_⟩
  · rfl
  · rfl
  · decide
  · decide

/-- C9, counterexample: a system message with empty content is extracted
from the message list but, being falsy in Python, is not sent as the
top-level `system` field — the claim would require `system = some ""`. -/
theorem bedrock_system_extraction_counterexample :
    (buildBedrockBody [⟨"system", ""⟩, ⟨"user", "hi"⟩] 1 100).system = none ∧
    (buildBedrockBody [⟨"system", ""⟩, ⟨"user", "hi"⟩] 1 100).system ≠ some "" := by
  exact ⟨rfl, by decide⟩

/-- C9, amended: every system-role message is removed from the forwarded
list, which keeps the other messages' role and content in order; the
`system` field carries the content of the last system message provided
that content is non-empty (an empty content, like an absent system
message, omits the field); the envelope is exactly the fixed
`anthropic_version`/`max_tokens`/`temperature`/`messages`/optional
`system` record. -/
theorem bedrock_body_amended (messages : List Message) (temperature : ℚ)
    (max_tokens : Int) :
    (buildBedrockBody messages temperature max_tokens).messages
        = messages.filter (fun m => !(m.role == "system")) ∧
    (buildBedrockBody messages temperature max_tokens).system
        = (match lastSystemContent messages with
           | some s => if s == "" then none else some s
           | none => none) ∧
    (buildBedrockBody messages temperature max_tokens).anthropic_version
        = "bedrock-2023-05-31" ∧
    (buildBedrockBody messages temperature max_tokens).max_tokens = max_tokens ∧
    (buildBedrockBody messages temperature max_tokens).temperature = temperature := by
  simp only [buildBedrockBody, bedrockSplitMessages]
  rw [bedrockSplit_go]
  refine ⟨by simp, ?_, by simp, by simp, by simp⟩
  cases lastSystemContent messages <;> simp

/-- C10: the mock result's `model` field is the literal `"mock-model"`,
and the caller-supplied model string influences no field of the result
(nor the updated state). -/
theorem mock_result_ignores_model (st : MockState) (messages : List Message)
    (model other_model : String) (temperature : ℚ) (max_tokens : Int) :
    (mockChatCompletion st messages model temperature max_tokens).2.model
        = "mock-model" ∧
    mockChatCompletion st messages model temperature max_tokens =
      mockChatCompletion st messages other_model temperature max_tokens :=
  ⟨rfl, rfl⟩

end MCPComm
